import Mathlib

/-!
Verification development for the `video-call` WebRTC signaling relay.

This file gives a shallow embedding of `src/ws/stream.js` (the room-membership
and message-relay engine) together with the configuration values it consumes
from `src/config/config.js`, and proves properties of the embedded code.

JavaScript dynamic values are modelled by the inductive type `JSVal`;
JS property access, truthiness, `typeof`, and the regular expressions used by
the validators are modelled explicitly.  Machine time (`Date.now()`) is a `Nat`
supplied with each inbound event.  Socket.IO primitives used by the handlers
are modelled as operations on an explicit server state:
`socket.join` / `socket.leave` mutate an association list of rooms,
`socket.to(room).emit` targets the members of `room` minus the emitting socket,
and `socket.emit` targets the emitting socket alone.
-/

namespace VideoCall

/-- JavaScript runtime values, as far as the relay inspects them:
`null`, `undefined`, booleans, numbers, strings and plain objects
(association lists of fields). -/
inductive JSVal where
  | null
  | undefined
  | bool (b : Bool)
  | num (n : Int)
  | str (s : String)
  | obj (fields : List (String × JSVal))

/-- JS truthiness: `null`, `undefined`, `false`, `0` and `""` are falsy,
everything else the relay handles is truthy. -/
def truthy : JSVal → Bool
  | .null => false
  | .undefined => false
  | .bool b => b
  | .num n => n != 0
  | .str s => s != ""
  | .obj _ => true

/-- JS `typeof` for the values of `JSVal`; note `typeof null = "object"`. -/
def jsTypeof : JSVal → String
  | .null => "object"
  | .undefined => "undefined"
  | .bool _ => "boolean"
  | .num _ => "number"
  | .str _ => "string"
  | .obj _ => "object"

/-- Whether a value is a plain object (the `obj` constructor). -/
def isObjVal : JSVal → Bool
  | .obj _ => true
  | _ => false

/-- Whether a value is exactly `null`. -/
def isNullVal : JSVal → Bool
  | .null => true
  | _ => false

/-- First field of an object with the given key, if any. -/
def lookupField : List (String × JSVal) → String → Option JSVal
  | [], _ => none
  | (k, v) :: rest, key => if k = key then some v else lookupField rest key

/-- Total model of JS property access `v[k]`: a missing field of an object is
`undefined`, and property access on primitives yields `undefined`.  (Access on
`null`/`undefined`, which throws in JS, also yields `undefined` here; the
handlers only ever access fields behind truthiness guards.  The throwing
behaviour is modelled separately by `getFieldE`.) -/
def getF (v : JSVal) (k : String) : JSVal :=
  match v with
  | .obj fs => (lookupField fs k).getD .undefined
  | _ => .undefined

/-- A JS exception. -/
inductive Fault where
  | err (msg : String)
deriving DecidableEq

/-- Exception-aware model of JS property access `v[k]`: accessing a property
of `null` or `undefined` throws a `TypeError`; any other access returns
normally (missing fields and primitive receivers give `undefined`). -/
def getFieldE : JSVal → String → Except Fault JSVal
  | .null, _ => .error (.err "TypeError")
  | .undefined, _ => .error (.err "TypeError")
  | v, k => .ok (getF v k)

/-- The string content of a `JSVal` already known to be a string
(default `""` otherwise; the handlers apply it only behind `typeof` guards). -/
def asString : JSVal → String
  | .str s => s
  | _ => ""

/-! ### Regular expressions used by the validators -/

/-- Character class of the room-name regex `^[a-zA-Z0-9_-]+$`. -/
def isRoomChar (c : Char) : Bool :=
  c.isAlphanum || c == '_' || c == '-'

/-- The test `/^[a-zA-Z0-9_-]+$/.test(s)`: `s` is non-empty and every
character is in the class. -/
def roomNameTest (s : String) : Bool :=
  s.data != [] && s.data.all isRoomChar

/-- Word character for `\w` in the XSS regex: `[A-Za-z0-9_]`. -/
def isWordChar (c : Char) : Bool :=
  c.isAlphanum || c == '_'

/-- Helper for the XSS regex: the input matches `\w*=` from the start. -/
def wordStarEq : List Char → Bool
  | [] => false
  | c :: rest => c == '=' || (isWordChar c && wordStarEq rest)

/-- Helper for the XSS regex: the input matches `\w+=` from the start. -/
def afterOn : List Char → Bool
  | [] => false
  | c :: rest => isWordChar c && wordStarEq rest

/-- Helper for the XSS regex: the input matches `n\w+=` from the start. -/
def onTail : List Char → Bool
  | [] => false
  | c :: rest => c == 'n' && afterOn rest

/-- The input contains a match of `on\w+=` at some position. -/
def onAttrScan : List Char → Bool
  | [] => false
  | c :: rest => (c == 'o' && onTail rest) || onAttrScan rest

/-- Does `l` contain `pat` as a contiguous sublist? -/
def containsSub (pat : List Char) : List Char → Bool
  | [] => pat.isPrefixOf []
  | c :: rest => pat.isPrefixOf (c :: rest) || containsSub pat rest

/-- The test `/<script|javascript:|on\w+=/i.test(s)`: case-insensitivity is
modelled by lowercasing the input (the alternatives are already lowercase). -/
def xssTest (s : String) : Bool :=
  let l := s.data.map Char.toLower
  containsSub "<script".data l || containsSub "javascript:".data l || onAttrScan l

/-! ### Validators (`validateRoomData`, `validateSDPData`, `validateICEData`,
`validateChatData`)

Each validator is given twice: a `Bool`-valued version used by the event
handlers, and an `Except`-valued version (suffix `E`) in which every JS
property access is the throwing `getFieldE`, so that "the validator never
throws" is a provable statement rather than an artifact of Lean totality. -/

/-- Validate room data (`validateRoomData` in `stream.js`). -/
def validateRoomData (data : JSVal) : Bool :=
  if !truthy data || jsTypeof data != "object" then false
  else
    let room := getF data "room"
    if !truthy room || jsTypeof room != "string" || (asString room).length == 0 then false
    else
      let sid := getF data "socketId"
      if !truthy sid || jsTypeof sid != "string" || (asString sid).length == 0 then false
      else if (asString room).length > 100 || !roomNameTest (asString room) then false
      else true

/-- Exception-aware `validateRoomData`, with throwing property access. -/
def validateRoomDataE (data : JSVal) : Except Fault Bool :=
  if !truthy data || jsTypeof data != "object" then .ok false
  else match getFieldE data "room" with
  | .error e => .error e
  | .ok room =>
    if !truthy room || jsTypeof room != "string" || (asString room).length == 0 then .ok false
    else match getFieldE data "socketId" with
    | .error e => .error e
    | .ok sid =>
      if !truthy sid || jsTypeof sid != "string" || (asString sid).length == 0 then .ok false
      else if (asString room).length > 100 || !roomNameTest (asString room) then .ok false
      else .ok true

/-- The test `['offer','answer'].includes(v)`: JS `includes` uses strict
equality, so a non-string `v` never matches. -/
def offerAnswerIncludes (v : JSVal) : Bool :=
  match v with
  | .str s => s == "offer" || s == "answer"
  | _ => false

/-- Validate SDP data (`validateSDPData` in `stream.js`). -/
def validateSDPData (data : JSVal) : Bool :=
  if !truthy data || jsTypeof data != "object" then false
  else if !truthy (getF data "to") || jsTypeof (getF data "to") != "string" then false
  else if !truthy (getF data "sender") || jsTypeof (getF data "sender") != "string" then false
  else
    let desc := getF data "description"
    if !truthy desc || jsTypeof desc != "object" then false
    else
      let ty := getF desc "type"
      if !truthy ty || !offerAnswerIncludes ty then false
      else if !truthy (getF desc "sdp") || jsTypeof (getF desc "sdp") != "string" then false
      else true

/-- Exception-aware `validateSDPData`, with throwing property access. -/
def validateSDPDataE (data : JSVal) : Except Fault Bool :=
  if !truthy data || jsTypeof data != "object" then .ok false
  else match getFieldE data "to" with
  | .error e => .error e
  | .ok toV =>
    if !truthy toV || jsTypeof toV != "string" then .ok false
    else match getFieldE data "sender" with
    | .error e => .error e
    | .ok sender =>
      if !truthy sender || jsTypeof sender != "string" then .ok false
      else match getFieldE data "description" with
      | .error e => .error e
      | .ok desc =>
        if !truthy desc || jsTypeof desc != "object" then .ok false
        else match getFieldE desc "type" with
        | .error e => .error e
        | .ok ty =>
          if !truthy ty || !offerAnswerIncludes ty then .ok false
          else match getFieldE desc "sdp" with
          | .error e => .error e
          | .ok sdpV =>
            if !truthy sdpV || jsTypeof sdpV != "string" then .ok false
            else .ok true

/-- Validate ICE candidate data (`validateICEData` in `stream.js`).
`candidate` may be exactly `null` (end-of-candidates); otherwise it must be a
truthy value of `typeof "object"`. -/
def validateICEData (data : JSVal) : Bool :=
  if !truthy data || jsTypeof data != "object" then false
  else if !truthy (getF data "to") || jsTypeof (getF data "to") != "string" then false
  else if !truthy (getF data "sender") || jsTypeof (getF data "sender") != "string" then false
  else
    let cand := getF data "candidate"
    if !isNullVal cand && (!truthy cand || jsTypeof cand != "object") then false
    else true

/-- Exception-aware `validateICEData`, with throwing property access. -/
def validateICEDataE (data : JSVal) : Except Fault Bool :=
  if !truthy data || jsTypeof data != "object" then .ok false
  else match getFieldE data "to" with
  | .error e => .error e
  | .ok toV =>
    if !truthy toV || jsTypeof toV != "string" then .ok false
    else match getFieldE data "sender" with
    | .error e => .error e
    | .ok sender =>
      if !truthy sender || jsTypeof sender != "string" then .ok false
      else match getFieldE data "candidate" with
      | .error e => .error e
      | .ok cand =>
        if !isNullVal cand && (!truthy cand || jsTypeof cand != "object") then .ok false
        else .ok true

/-- Validate chat data (`validateChatData` in `stream.js`). -/
def validateChatData (data : JSVal) : Bool :=
  if !truthy data || jsTypeof data != "object" then false
  else if !truthy (getF data "room") || jsTypeof (getF data "room") != "string" then false
  else if !truthy (getF data "sender") || jsTypeof (getF data "sender") != "string" then false
  else
    let msg := getF data "msg"
    if !truthy msg || jsTypeof msg != "string" then false
    else if (asString msg).length == 0 || (asString msg).length > 1000 then false
    else if xssTest (asString msg) then false
    else true

/-- Exception-aware `validateChatData`, with throwing property access. -/
def validateChatDataE (data : JSVal) : Except Fault Bool :=
  if !truthy data || jsTypeof data != "object" then .ok false
  else match getFieldE data "room" with
  | .error e => .error e
  | .ok room =>
    if !truthy room || jsTypeof room != "string" then .ok false
    else match getFieldE data "sender" with
    | .error e => .error e
    | .ok sender =>
      if !truthy sender || jsTypeof sender != "string" then .ok false
      else match getFieldE data "msg" with
      | .error e => .error e
      | .ok msg =>
        if !truthy msg || jsTypeof msg != "string" then .ok false
        else if (asString msg).length == 0 || (asString msg).length > 1000 then .ok false
        else if xssTest (asString msg) then .ok false
        else .ok true

/-! ### Rate limiter (`isRateLimited`, key sweep on disconnect)

`rateLimitMap` is an association list keyed by the JS string
`socketId + ":" + event`, modelled as its character list so that the
`key.startsWith(socket.id)` sweep on disconnect can be reasoned about. -/

/-- One entry of `rateLimitMap`: an event count and a window reset time. -/
structure Window where
  count : Nat
  resetTime : Nat
deriving DecidableEq

/-- The rate-limit map: association list from key (character list of
`socketId + ":" + event`) to window. -/
abbrev RateMap := List (List Char × Window)

/-- The rate-limit constant `RATE_LIMIT_WINDOW` (1 second, in ms). -/
def RATE_LIMIT_WINDOW : Nat := 1000

/-- The rate-limit constant `RATE_LIMIT_MAX_EVENTS` (max events per window). -/
def RATE_LIMIT_MAX_EVENTS : Nat := 10

/-- The map key `socketId + ":" + event`, as a character list. -/
def rlKey (socketId event : String) : List Char :=
  socketId.data ++ ':' :: event.data

/-- The JS `Map.set`: replace the entry for `k`, or append a fresh one. -/
def setW : RateMap → List Char → Window → RateMap
  | [], k, w => [(k, w)]
  | (k2, w2) :: rest, k, w =>
      if k2 = k then (k, w) :: rest else (k2, w2) :: setW rest k w

/-- Lookup in the rate-limit map (the JS `Map.get` / `Map.has`). -/
def rlGet (m : RateMap) (k : List Char) : Option Window :=
  match m with
  | [] => none
  | (k2, w) :: rest => if k2 = k then some w else rlGet rest k

/-- The `isRateLimited` function of `stream.js`: returns whether the event is
rate limited together with the updated map.  First call for a key creates a
window with `count = 1` and `resetTime = now + RATE_LIMIT_WINDOW`; a call with
`now > resetTime` starts a fresh window with `count = 1`; a call inside the
window with `count ≥ RATE_LIMIT_MAX_EVENTS` is limited and leaves the map
unchanged; otherwise the count is incremented. -/
def isRateLimited (m : RateMap) (socketId event : String) (now : Nat) :
    Bool × RateMap :=
  let key := rlKey socketId event
  match rlGet m key with
  | none => (false, setW m key ⟨1, now + RATE_LIMIT_WINDOW⟩)
  | some limit =>
      if limit.resetTime < now then
        (false, setW m key ⟨1, now + RATE_LIMIT_WINDOW⟩)
      else if RATE_LIMIT_MAX_EVENTS ≤ limit.count then
        (true, m)
      else
        (false, setW m key ⟨limit.count + 1, limit.resetTime⟩)

/-- The disconnect-time sweep of `rateLimitMap`: delete every entry whose key
starts with the disconnecting socket's id (`key.startsWith(socket.id)`). -/
def rlSweep (m : RateMap) (socketId : String) : RateMap :=
  m.filter (fun kv => !(List.isPrefixOf socketId.data kv.1))

/-! ### Room registry (the Socket.IO adapter's `rooms` map)

Rooms are an association list from room name to its member socket ids, with
set semantics: `socket.join` inserts the id if absent, `socket.leave` removes
it and the adapter drops a room whose member set becomes empty. -/

/-- The adapter's `rooms` map: room name to member socket ids (no duplicates
are ever inserted). -/
abbrev Rooms := List (String × List String)

/-- Member list of a room (empty for an unknown room). -/
def roomsGet (rs : Rooms) (r : String) : List String :=
  match rs with
  | [] => []
  | (r2, l) :: rest => if r2 = r then l else roomsGet rest r

/-- Whether the adapter has an entry for the room (`rooms.has(room)`). -/
def roomsHas (rs : Rooms) (r : String) : Bool :=
  match rs with
  | [] => false
  | (r2, _) :: rest => r2 = r || roomsHas rest r

/-- The `getRoomSize` helper of `stream.js`: size of the room's member set,
`0` for an unknown room. -/
def getRoomSize (rs : Rooms) (r : String) : Nat :=
  (roomsGet rs r).length

/-- The effect of `socket.join(room)` on the adapter: add the socket id to the
room's member set (set semantics — a second join of a present member is a
no-op), creating the room if absent. -/
def joinRoom (rs : Rooms) (r sid : String) : Rooms :=
  match rs with
  | [] => [(r, [sid])]
  | (r2, l) :: rest =>
      if r2 = r then (r2, if sid ∈ l then l else sid :: l) :: rest
      else (r2, l) :: joinRoom rest r sid

/-- The effect of `socket.leave(room)` on the adapter: remove the socket id
from the room's member set, dropping the room entry if it becomes empty. -/
def leaveRoomOp (rs : Rooms) (r sid : String) : Rooms :=
  match rs with
  | [] => []
  | (r2, l) :: rest =>
      if r2 = r then
        let l2 := l.filter (fun x => x ≠ sid)
        if l2 = [] then rest else (r2, l2) :: rest
      else (r2, l) :: leaveRoomOp rest r sid

/-- Remove a socket id from every room (the adapter's cleanup when a socket
disconnects). -/
def removeFromAll (rs : Rooms) (sid : String) : Rooms :=
  match rs with
  | [] => []
  | (r2, l) :: rest =>
      let l2 := l.filter (fun x => x ≠ sid)
      if l2 = [] then removeFromAll rest sid
      else (r2, l2) :: removeFromAll rest sid

/-- Rooms the socket is currently a member of, in adapter order
(`socket.rooms`). -/
def roomsOf (rs : Rooms) (sid : String) : List String :=
  (rs.filter (fun kv => sid ∈ kv.2)).map (fun kv => kv.1)

/-! ### Server state, outbound messages and the event handlers -/

/-- The shared mutable state of the relay: the adapter's rooms and the
rate-limit map. -/
structure SState where
  rooms : Rooms
  rate : RateMap

/-- The connection-less initial state: no rooms, no rate-limit windows. -/
def initState : SState := ⟨[], []⟩

/-- An outbound message: the socket ids it is delivered to, the event name,
and the payload. -/
structure Emit where
  recipients : List String
  event : String
  payload : JSVal

/-- Recipients of `socket.to(room).emit(...)`: the members of the room minus
the emitting socket itself (Socket.IO never delivers a `to`-broadcast back to
the sender). -/
def broadcastTo (rs : Rooms) (room sid : String) : List String :=
  (roomsGet rs room).filter (fun x => x ≠ sid)

/-- The payload `{ message: m }` of an `error` emit. -/
def errPayload (m : String) : JSVal := .obj [("message", .str m)]

/-- An `error` emit to the calling socket only (`socket.emit('error', ...)`). -/
def errEmit (sid : String) (m : String) : Emit :=
  ⟨[sid], "error", errPayload m⟩

/-- Configuration consumed by the core (`src/config/config.js`):
`MAX_ROOM_SIZE` defaults to 10 and `validateConfig` enforces 2–50. -/
structure Config where
  MAX_ROOM_SIZE : Nat

/-- The default configuration (`MAX_ROOM_SIZE = 10`). -/
def defaultConfig : Config := ⟨10⟩

/-- The range check on `MAX_ROOM_SIZE` performed by `validateConfig`. -/
def configOk (c : Config) : Bool :=
  2 ≤ c.MAX_ROOM_SIZE && c.MAX_ROOM_SIZE ≤ 50

/-- Body of the `subscribe` handler: rate-limit check, validation, room-size
check against `config.MAX_ROOM_SIZE`, then `socket.join(data.room)` and
`socket.join(data.socketId)` followed by the `new user` notification to the
other members of the room. -/
def subscribeBody (cfg : Config) (st : SState) (sid : String) (now : Nat)
    (data : JSVal) : SState × List Emit :=
  let rl := isRateLimited st.rate sid "subscribe" now
  if rl.1 then
    ({ st with rate := rl.2 }, [errEmit sid "Too many requests. Please slow down."])
  else if !validateRoomData data then
    ({ st with rate := rl.2 }, [errEmit sid "Invalid room data"])
  else
    let room := asString (getF data "room")
    if cfg.MAX_ROOM_SIZE ≤ getRoomSize st.rooms room then
      ({ st with rate := rl.2 }, [errEmit sid "Room is full. Maximum capacity reached."])
    else
      let rooms2 := joinRoom (joinRoom st.rooms room sid) (asString (getF data "socketId")) sid
      let emits :=
        if roomsHas rooms2 room then
          [⟨broadcastTo rooms2 room sid, "new user",
            .obj [("socketId", getF data "socketId"), ("timestamp", .num now)]⟩]
        else []
      (⟨rooms2, rl.2⟩, emits)

/-- Body of the `newUserStart` handler: rate-limit check, the inline shape
check `!data || !data.to || !data.sender`, then forward `{sender, timestamp}`
to the target's implicit room. -/
def newUserStartBody (st : SState) (sid : String) (now : Nat) (data : JSVal) :
    SState × List Emit :=
  let rl := isRateLimited st.rate sid "newUserStart" now
  if rl.1 then ({ st with rate := rl.2 }, [])
  else if !truthy data || !truthy (getF data "to") || !truthy (getF data "sender") then
    ({ st with rate := rl.2 }, [])
  else
    ({ st with rate := rl.2 },
     [⟨broadcastTo st.rooms (asString (getF data "to")) sid, "newUserStart",
       .obj [("sender", getF data "sender"), ("timestamp", .num now)]⟩])

/-- Body of the `sdp` handler: rate-limit check, `validateSDPData`, then
forward `{description, sender, timestamp}` to `data.to`. -/
def sdpBody (st : SState) (sid : String) (now : Nat) (data : JSVal) :
    SState × List Emit :=
  let rl := isRateLimited st.rate sid "sdp" now
  if rl.1 then ({ st with rate := rl.2 }, [])
  else if !validateSDPData data then ({ st with rate := rl.2 }, [])
  else
    ({ st with rate := rl.2 },
     [⟨broadcastTo st.rooms (asString (getF data "to")) sid, "sdp",
       .obj [("description", getF data "description"),
             ("sender", getF data "sender"),
             ("timestamp", .num now)]⟩])

/-- Body of the `ice candidates` handler: rate-limit check, `validateICEData`,
then forward `{candidate, sender, timestamp}` to `data.to`. -/
def iceBody (st : SState) (sid : String) (now : Nat) (data : JSVal) :
    SState × List Emit :=
  let rl := isRateLimited st.rate sid "ice candidates" now
  if rl.1 then ({ st with rate := rl.2 }, [])
  else if !validateICEData data then ({ st with rate := rl.2 }, [])
  else
    ({ st with rate := rl.2 },
     [⟨broadcastTo st.rooms (asString (getF data "to")) sid, "ice candidates",
       .obj [("candidate", getF data "candidate"),
             ("sender", getF data "sender"),
             ("timestamp", .num now)]⟩])

/-- Body of the `chat` handler: rate-limit check, `validateChatData`, then
broadcast `{sender, msg, timestamp}` to the other members of `data.room`. -/
def chatBody (st : SState) (sid : String) (now : Nat) (data : JSVal) :
    SState × List Emit :=
  let rl := isRateLimited st.rate sid "chat" now
  if rl.1 then
    ({ st with rate := rl.2 }, [errEmit sid "Too many messages. Please slow down."])
  else if !validateChatData data then
    ({ st with rate := rl.2 }, [errEmit sid "Invalid message format"])
  else
    ({ st with rate := rl.2 },
     [⟨broadcastTo st.rooms (asString (getF data "room")) sid, "chat",
       .obj [("sender", getF data "sender"),
             ("msg", getF data "msg"),
             ("timestamp", .num now)]⟩])

/-- Body of the `leaveRoom` handler: if `data && data.room`, leave the room
and broadcast `userLeft` to it (the broadcast is computed after the leave, so
it reaches the remaining members). -/
def leaveRoomBody (st : SState) (sid : String) (now : Nat) (data : JSVal) :
    SState × List Emit :=
  if truthy data && truthy (getF data "room") then
    let room := asString (getF data "room")
    let rooms2 := leaveRoomOp st.rooms room sid
    ({ st with rooms := rooms2 },
     [⟨broadcastTo rooms2 room sid, "userLeft",
       .obj [("socketId", .str sid), ("timestamp", .num now)]⟩])
  else
    (st, [])

/-- Body of the `disconnect` handler plus the adapter's own cleanup: sweep the
rate-limit map by key prefix, broadcast `userLeft` to every room the socket is
in other than its own id room, then (adapter) drop the socket from all rooms. -/
def disconnectBody (st : SState) (sid : String) (now : Nat) :
    SState × List Emit :=
  let rate2 := rlSweep st.rate sid
  let emits := (roomsOf st.rooms sid).filterMap (fun room =>
    if room ≠ sid then
      some ⟨broadcastTo st.rooms room sid, "userLeft",
        .obj [("socketId", .str sid), ("timestamp", .num now)]⟩
    else none)
  (⟨removeFromAll st.rooms sid, rate2⟩, emits)

/-! ### The try/catch wrapping of the registered handlers

`stream.js` wraps the bodies of the `subscribe`, `newUserStart`, `sdp`,
`ice candidates`, `chat` and `leaveRoom` handlers in `try { ... } catch`; the
`disconnect` handler body is registered bare.  To make the wrapping a provable
property, each registered handler takes an optional injected fault standing
for an unexpected exception raised during the body's execution; a `try`-
wrapped handler catches it (emitting what its `catch` block emits), while an
unwrapped handler lets it propagate (an `Except.error` result). -/

/-- Run a handler body under an optional injected fault: the fault, if
present, is raised during execution. -/
def runBody (fault : Option Fault) (r : α) : Except Fault α :=
  match fault with
  | some f => .error f
  | none => .ok r

/-- The registered `subscribe` handler: body wrapped in `try/catch`; the
`catch` block emits `error { message: 'Internal server error' }`. -/
def subscribeHandler (cfg : Config) (st : SState) (sid : String) (now : Nat)
    (data : JSVal) (fault : Option Fault) : SState × List Emit :=
  match runBody fault (subscribeBody cfg st sid now data) with
  | .ok r => r
  | .error _ => (st, [errEmit sid "Internal server error"])

/-- The registered `newUserStart` handler: wrapped; the `catch` only logs. -/
def newUserStartHandler (st : SState) (sid : String) (now : Nat) (data : JSVal)
    (fault : Option Fault) : SState × List Emit :=
  match runBody fault (newUserStartBody st sid now data) with
  | .ok r => r
  | .error _ => (st, [])

/-- The registered `sdp` handler: wrapped; the `catch` only logs. -/
def sdpHandler (st : SState) (sid : String) (now : Nat) (data : JSVal)
    (fault : Option Fault) : SState × List Emit :=
  match runBody fault (sdpBody st sid now data) with
  | .ok r => r
  | .error _ => (st, [])

/-- The registered `ice candidates` handler: wrapped; the `catch` only logs. -/
def iceHandler (st : SState) (sid : String) (now : Nat) (data : JSVal)
    (fault : Option Fault) : SState × List Emit :=
  match runBody fault (iceBody st sid now data) with
  | .ok r => r
  | .error _ => (st, [])

/-- The registered `chat` handler: wrapped; the `catch` block emits
`error { message: 'Failed to send message' }`. -/
def chatHandler (st : SState) (sid : String) (now : Nat) (data : JSVal)
    (fault : Option Fault) : SState × List Emit :=
  match runBody fault (chatBody st sid now data) with
  | .ok r => r
  | .error _ => (st, [errEmit sid "Failed to send message"])

/-- The registered `leaveRoom` handler: wrapped; the `catch` only logs. -/
def leaveRoomHandler (st : SState) (sid : String) (now : Nat) (data : JSVal)
    (fault : Option Fault) : SState × List Emit :=
  match runBody fault (leaveRoomBody st sid now data) with
  | .ok r => r
  | .error _ => (st, [])

/-- The registered `disconnect` handler: its body is NOT wrapped in
`try/catch` in `stream.js`, so a fault raised during its execution propagates
out of the handler. -/
def disconnectHandler (st : SState) (sid : String) (now : Nat)
    (fault : Option Fault) : Except Fault (SState × List Emit) :=
  runBody fault (disconnectBody st sid now)

/-! ### The fault-free event machine -/

/-- An inbound event at the relay, tagged with the connection's socket id and
the value of `Date.now()` when it is processed. -/
inductive Event where
  | connect (sid : String)
  | subscribe (sid : String) (now : Nat) (data : JSVal)
  | newUserStart (sid : String) (now : Nat) (data : JSVal)
  | sdp (sid : String) (now : Nat) (data : JSVal)
  | ice (sid : String) (now : Nat) (data : JSVal)
  | chat (sid : String) (now : Nat) (data : JSVal)
  | leaveRoom (sid : String) (now : Nat) (data : JSVal)
  | disconnect (sid : String) (now : Nat)

/-- The socket id a given event comes from. -/
def Event.sid : Event → String
  | .connect s => s
  | .subscribe s _ _ => s
  | .newUserStart s _ _ => s
  | .sdp s _ _ => s
  | .ice s _ _ => s
  | .chat s _ _ => s
  | .leaveRoom s _ _ => s
  | .disconnect s _ => s

/-- One step of the relay with no injected fault.  `connect` models Socket.IO
placing every new socket in its own id room; the other events run the
registered handlers of `stream.js`. -/
def step (cfg : Config) (st : SState) : Event → SState × List Emit
  | .connect sid => ({ st with rooms := joinRoom st.rooms sid sid }, [])
  | .subscribe sid now data => subscribeHandler cfg st sid now data none
  | .newUserStart sid now data => newUserStartHandler st sid now data none
  | .sdp sid now data => sdpHandler st sid now data none
  | .ice sid now data => iceHandler st sid now data none
  | .chat sid now data => chatHandler st sid now data none
  | .leaveRoom sid now data => leaveRoomHandler st sid now data none
  | .disconnect sid now =>
      match disconnectHandler st sid now none with
      | .ok r => r
      | .error _ => (st, [])

/-- Run a list of events from a state (reachability). -/
def runEvents (cfg : Config) (st : SState) : List Event → SState
  | [] => st
  | e :: rest => runEvents cfg (step cfg st e).1 rest

/-- The emits of the last step of a run (for concrete scenarios). -/
def lastEmits (cfg : Config) (st : SState) : List Event → List Emit
  | [] => []
  | [e] => (step cfg st e).2
  | e :: rest => lastEmits cfg (step cfg st e).1 rest

/-- Run `isRateLimited` for one key over a list of call times, threading the
map. -/
def rlRun (m : RateMap) (socketId event : String) : List Nat → RateMap
  | [] => m
  | t :: ts => rlRun (isRateLimited m socketId event t).2 socketId event ts

/-- Whether every call in a list of call times for one key is admitted. -/
def rlAllAdmitted (m : RateMap) (socketId event : String) : List Nat → Bool
  | [] => true
  | t :: ts =>
      !(isRateLimited m socketId event t).1 &&
      rlAllAdmitted (isRateLimited m socketId event t).2 socketId event ts

/-! ### Helper lemmas -/

theorem rlGet_setW_self (m : RateMap) (k : List Char) (w : Window) :
    rlGet (setW m k w) k = some w := by
  induction m with
  | nil => simp [setW, rlGet]
  | cons kv rest ih =>
      obtain ⟨k2, w2⟩ := kv
      by_cases h : k2 = k
      · simp [setW, rlGet, h]
      · simp [setW, rlGet, h, ih]

theorem rl_window_invariant (socketId event : String) :
    ∀ (ts : List Nat) (m : RateMap) (c r : Nat),
      rlGet m (rlKey socketId event) = some ⟨c, r⟩ →
      (∀ t ∈ ts, t ≤ r) →
      c + ts.length ≤ RATE_LIMIT_MAX_EVENTS →
      rlAllAdmitted m socketId event ts = true ∧
      rlGet (rlRun m socketId event ts) (rlKey socketId event) = some ⟨c + ts.length, r⟩ := by
  intro ts
  induction ts with
  | nil => intro m c r hget _ _; exact ⟨rfl, by simpa using hget⟩
  | cons t ts ih =>
      intro m c r hget hle hcount
      have ht : t ≤ r := hle t (List.mem_cons_self t ts)
      have hlt : ¬ r < t := not_lt.mpr ht
      have hc : ¬ RATE_LIMIT_MAX_EVENTS ≤ c := by
        simp only [List.length_cons] at hcount
        omega
      have hstep : isRateLimited m socketId event t =
          (false, setW m (rlKey socketId event) ⟨c + 1, r⟩) := by
        simp [isRateLimited, hget, hlt, hc]
      have hget2 : rlGet (setW m (rlKey socketId event) ⟨c + 1, r⟩)
          (rlKey socketId event) = some ⟨c + 1, r⟩ := rlGet_setW_self ..
      have hle2 : ∀ t' ∈ ts, t' ≤ r := fun t' h => hle t' (List.mem_cons_of_mem t h)
      have hcount2 : c + 1 + ts.length ≤ RATE_LIMIT_MAX_EVENTS := by
        simp only [List.length_cons] at hcount; omega
      obtain ⟨h1, h2⟩ := ih _ _ _ hget2 hle2 hcount2
      refine ⟨?_, ?_⟩
      · simp [rlAllAdmitted, hstep, h1]
      · simp only [rlRun, hstep]
        simpa [Nat.add_assoc, Nat.add_comm 1 ts.length] using h2

theorem rlGet_rlSweep_of_isPrefix (m : RateMap) (socketId : String)
    (k : List Char) (h : List.isPrefixOf socketId.data k = true) :
    rlGet (rlSweep m socketId) k = none := by
  induction m with
  | nil => rfl
  | cons kv rest ih =>
      obtain ⟨k2, w2⟩ := kv
      by_cases hkeep : List.isPrefixOf socketId.data k2 = true
      · simpa [rlSweep, List.filter, hkeep] using ih
      · have hne : k2 ≠ k := by
          intro hk; subst hk; exact hkeep h
        simpa [rlSweep, List.filter, hkeep, rlGet, hne] using ih

theorem isPrefixOf_rlKey (socketId did event : String)
    (h : List.isPrefixOf socketId.data did.data = true) :
    List.isPrefixOf socketId.data (rlKey did event) = true := by
  rw [List.isPrefixOf_iff_prefix] at h ⊢
  exact h.trans (List.prefix_append _ _)

theorem roomsGet_joinRoom_self (rs : Rooms) (r sid : String) :
    roomsGet (joinRoom rs r sid) r =
      if sid ∈ roomsGet rs r then roomsGet rs r else sid :: roomsGet rs r := by
  induction rs with
  | nil => simp [joinRoom, roomsGet]
  | cons kv rest ih =>
      obtain ⟨r2, l⟩ := kv
      by_cases h : r2 = r
      · simp [joinRoom, roomsGet, h]
      · simp [joinRoom, roomsGet, h, ih]

theorem roomsGet_joinRoom_ne (rs : Rooms) {r r2 : String} (sid : String)
    (h : r2 ≠ r) : roomsGet (joinRoom rs r sid) r2 = roomsGet rs r2 := by
  have h2 : ¬ r = r2 := fun hh => h hh.symm
  induction rs with
  | nil => simp [joinRoom, roomsGet, h2]
  | cons kv rest ih =>
      obtain ⟨r3, l⟩ := kv
      by_cases h3 : r3 = r
      · subst h3
        simp [joinRoom, roomsGet, h2]
      · by_cases hr2 : r3 = r2
        · simp [joinRoom, roomsGet, h3, hr2, h]
        · simp [joinRoom, roomsGet, h3, hr2, ih]

theorem mem_roomsGet_joinRoom (rs : Rooms) (r sid : String) :
    sid ∈ roomsGet (joinRoom rs r sid) r := by
  rw [roomsGet_joinRoom_self]
  by_cases h : sid ∈ roomsGet rs r <;> simp [h]

theorem length_roomsGet_joinRoom (rs : Rooms) (r sid : String) :
    (roomsGet (joinRoom rs r sid) r).length ≤ (roomsGet rs r).length + 1 := by
  rw [roomsGet_joinRoom_self]
  by_cases h : sid ∈ roomsGet rs r <;> simp [h]

theorem roomsGet_joinRoom_mem_noop (rs : Rooms) (r sid : String)
    (h : sid ∈ roomsGet rs r) : roomsGet (joinRoom rs r sid) r = roomsGet rs r := by
  rw [roomsGet_joinRoom_self, if_pos h]

theorem roomsHas_joinRoom_self (rs : Rooms) (r sid : String) :
    roomsHas (joinRoom rs r sid) r = true := by
  induction rs with
  | nil => simp [joinRoom, roomsHas]
  | cons kv rest ih =>
      obtain ⟨r2, l⟩ := kv
      by_cases h : r2 = r
      · simp [joinRoom, roomsHas, h]
      · simp [joinRoom, roomsHas, h, ih]

theorem roomsHas_joinRoom_of (rs : Rooms) (r r2 sid : String)
    (h : roomsHas rs r2 = true) : roomsHas (joinRoom rs r sid) r2 = true := by
  induction rs with
  | nil => simp [roomsHas] at h
  | cons kv rest ih =>
      obtain ⟨r3, l⟩ := kv
      by_cases h3 : r3 = r
      · simp only [roomsHas, Bool.or_eq_true, decide_eq_true_eq] at h
        simp only [joinRoom, h3, if_pos rfl, roomsHas, Bool.or_eq_true, decide_eq_true_eq]
        subst h3
        rcases h with h | h
        · exact Or.inl h
        · exact Or.inr h
      · simp only [roomsHas, Bool.or_eq_true, decide_eq_true_eq] at h
        simp only [joinRoom, h3, if_neg h3, roomsHas, Bool.or_eq_true, decide_eq_true_eq]
        rcases h with h | h
        · exact Or.inl h
        · exact Or.inr (ih h)

theorem not_mem_broadcastTo (rs : Rooms) (room sid : String) :
    sid ∉ broadcastTo rs room sid := by
  simp [broadcastTo, List.mem_filter]

theorem subscribeBody_full (cfg : Config) (st : SState) (sid : String)
    (now : Nat) (data : JSVal)
    (hrl : (isRateLimited st.rate sid "subscribe" now).1 = false)
    (hval : validateRoomData data = true)
    (hfull : cfg.MAX_ROOM_SIZE ≤ getRoomSize st.rooms (asString (getF data "room"))) :
    subscribeBody cfg st sid now data =
      ({ st with rate := (isRateLimited st.rate sid "subscribe" now).2 },
       [errEmit sid "Room is full. Maximum capacity reached."]) := by
  simp [subscribeBody, hrl, hval, hfull]

theorem subscribeBody_admitted (cfg : Config) (st : SState) (sid : String)
    (now : Nat) (data : JSVal)
    (hrl : (isRateLimited st.rate sid "subscribe" now).1 = false)
    (hval : validateRoomData data = true)
    (hroom : getRoomSize st.rooms (asString (getF data "room")) < cfg.MAX_ROOM_SIZE) :
    subscribeBody cfg st sid now data =
      (⟨joinRoom (joinRoom st.rooms (asString (getF data "room")) sid)
          (asString (getF data "socketId")) sid,
        (isRateLimited st.rate sid "subscribe" now).2⟩,
       [⟨broadcastTo (joinRoom (joinRoom st.rooms (asString (getF data "room")) sid)
            (asString (getF data "socketId")) sid) (asString (getF data "room")) sid,
         "new user",
         .obj [("socketId", getF data "socketId"), ("timestamp", .num now)]⟩]) := by
  have hfull : ¬ cfg.MAX_ROOM_SIZE ≤ getRoomSize st.rooms (asString (getF data "room")) :=
    not_le.mpr hroom
  have hhas : roomsHas (joinRoom (joinRoom st.rooms (asString (getF data "room")) sid)
      (asString (getF data "socketId")) sid) (asString (getF data "room")) = true :=
    roomsHas_joinRoom_of _ _ _ _ (roomsHas_joinRoom_self ..)
  simp [subscribeBody, hrl, hval, hfull, hhas]

theorem length_roomsGet_double_join (rs : Rooms) (target psid sid : String) :
    (roomsGet (joinRoom (joinRoom rs target sid) psid sid) target).length ≤
      (roomsGet rs target).length + 1 := by
  by_cases h : psid = target
  · subst h
    rw [roomsGet_joinRoom_mem_noop _ _ _ (mem_roomsGet_joinRoom ..)]
    exact length_roomsGet_joinRoom ..
  · rw [roomsGet_joinRoom_ne _ _ (Ne.symm h)]
    exact length_roomsGet_joinRoom ..

/-! ### Claim theorems -/

/-- C1 (amended): a `subscribe` whose target room `data.room` already has
`MAX_ROOM_SIZE` (or more) members is rejected — an `error` is emitted to the
caller and no room's membership changes — and a `subscribe` step never pushes
its target room `data.room` above `MAX_ROOM_SIZE`.  (The implicit
`socket.join(data.socketId)` room is joined without any size check, so the
bound does not extend to it: see the counterexample.) -/
theorem C1_subscribe_room_cap (cfg : Config) (st : SState) (sid : String)
    (now : Nat) (data : JSVal) :
    ((isRateLimited st.rate sid "subscribe" now).1 = false →
      validateRoomData data = true →
      cfg.MAX_ROOM_SIZE ≤ getRoomSize st.rooms (asString (getF data "room")) →
      (step cfg st (.subscribe sid now data)).2 =
          [errEmit sid "Room is full. Maximum capacity reached."] ∧
      (step cfg st (.subscribe sid now data)).1.rooms = st.rooms) ∧
    getRoomSize (step cfg st (.subscribe sid now data)).1.rooms
        (asString (getF data "room")) ≤
      max (getRoomSize st.rooms (asString (getF data "room"))) cfg.MAX_ROOM_SIZE := by
  constructor
  · intro hrl hval hfull
    have h := subscribeBody_full cfg st sid now data hrl hval hfull
    constructor <;> simp [step, subscribeHandler, runBody, h]
  · by_cases hrl : (isRateLimited st.rate sid "subscribe" now).1 = true
    · simp [step, subscribeHandler, runBody, subscribeBody, hrl, le_max_left]
    · have hrl2 : (isRateLimited st.rate sid "subscribe" now).1 = false := by
        simpa using hrl
      by_cases hval : validateRoomData data = true
      · by_cases hfull : cfg.MAX_ROOM_SIZE ≤ getRoomSize st.rooms (asString (getF data "room"))
        · have h := subscribeBody_full cfg st sid now data hrl2 hval hfull
          simp [step, subscribeHandler, runBody, h, le_max_left]
        · have hroom := not_le.mp hfull
          have h := subscribeBody_admitted cfg st sid now data hrl2 hval hroom
          simp only [step, subscribeHandler, runBody, h]
          refine le_trans ?_ (le_max_right _ _)
          calc getRoomSize
                (joinRoom (joinRoom st.rooms (asString (getF data "room")) sid)
                  (asString (getF data "socketId")) sid) (asString (getF data "room"))
              ≤ getRoomSize st.rooms (asString (getF data "room")) + 1 :=
                length_roomsGet_double_join ..
            _ ≤ cfg.MAX_ROOM_SIZE := hroom
      · have hval2 : validateRoomData data = false := by simpa using hval
        simp [step, subscribeHandler, runBody, subscribeBody, hrl2, hval2, le_max_left]

/-- All room data used by the concrete scenarios: `{ room: r, socketId: s }`. -/
def mkRoomData (r s : String) : JSVal :=
  .obj [("room", .str r), ("socketId", .str s)]

/-- Eleven different sockets subscribe to eleven different rooms, all naming
the same participant identifier `X`. -/
def c1trace : List Event :=
  [ .subscribe "s1" 0 (mkRoomData "r1" "X"),
    .subscribe "s2" 0 (mkRoomData "r2" "X"),
    .subscribe "s3" 0 (mkRoomData "r3" "X"),
    .subscribe "s4" 0 (mkRoomData "r4" "X"),
    .subscribe "s5" 0 (mkRoomData "r5" "X"),
    .subscribe "s6" 0 (mkRoomData "r6" "X"),
    .subscribe "s7" 0 (mkRoomData "r7" "X"),
    .subscribe "s8" 0 (mkRoomData "r8" "X"),
    .subscribe "s9" 0 (mkRoomData "r9" "X"),
    .subscribe "s10" 0 (mkRoomData "r10" "X"),
    .subscribe "s11" 0 (mkRoomData "r11" "X") ]

/-- C1 counterexample: under the default configuration (`MAX_ROOM_SIZE = 10`)
the implicit room `X`, created by `socket.join(data.socketId)`, reaches 11
members in a state reachable from the initial state — the claimed invariant
does not cover the implicit participant-identifier room, because that join is
performed with no size check. -/
theorem C1_implicit_room_exceeds_cap :
    defaultConfig.MAX_ROOM_SIZE = 10 ∧
    getRoomSize (runEvents defaultConfig initState c1trace).rooms "X" = 11 :=
  ⟨rfl, rfl⟩

/-- A room `R` already holding `MAX_ROOM_SIZE` members under the default
configuration. -/
def fullState : SState :=
  ⟨[("R", ["c1", "c2", "c3", "c4", "c5", "c6", "c7", "c8", "c9", "c10"])], []⟩

theorem C1_subscribe_room_cap_witness :
    (step defaultConfig fullState (.subscribe "z" 0 (mkRoomData "R" "p0"))).2 =
        [errEmit "z" "Room is full. Maximum capacity reached."] ∧
    (step defaultConfig fullState (.subscribe "z" 0 (mkRoomData "R" "p0"))).1.rooms =
        fullState.rooms :=
  (C1_subscribe_room_cap defaultConfig fullState "z" 0 (mkRoomData "R" "p0")).1
    rfl rfl (by decide)

theorem rl_first_call (m : RateMap) (c e : String) (now : Nat)
    (h : rlGet m (rlKey c e) = none) :
    isRateLimited m c e now =
      (false, setW m (rlKey c e) ⟨1, now + RATE_LIMIT_WINDOW⟩) := by
  simp [isRateLimited, h]

theorem rl_after_reset (m : RateMap) (c e : String) (now : Nat) (w : Window)
    (h : rlGet m (rlKey c e) = some w) (hlt : w.resetTime < now) :
    isRateLimited m c e now =
      (false, setW m (rlKey c e) ⟨1, now + RATE_LIMIT_WINDOW⟩) := by
  simp [isRateLimited, h, hlt]

theorem rl_full_rejects (m : RateMap) (c e : String) (now : Nat) (w : Window)
    (h : rlGet m (rlKey c e) = some w) (hlt : ¬ w.resetTime < now)
    (hc : RATE_LIMIT_MAX_EVENTS ≤ w.count) :
    isRateLimited m c e now = (true, m) := by
  simp [isRateLimited, h, hlt, hc]

theorem rl_incr (m : RateMap) (c e : String) (now : Nat) (w : Window)
    (h : rlGet m (rlKey c e) = some w) (hlt : ¬ w.resetTime < now)
    (hc : w.count < RATE_LIMIT_MAX_EVENTS) :
    isRateLimited m c e now =
      (false, setW m (rlKey c e) ⟨w.count + 1, w.resetTime⟩) := by
  simp [isRateLimited, h, hlt, not_le.mpr hc]

/-- C2 (amended): `isRateLimited` creates a window with `count = 1` and reset
time `now + 1000` on the first call for a key and admits; a call strictly
after the reset time starts a fresh window and admits; a call inside the
window with `count ≥ 10` rejects without changing the map; any other call
inside the window increments the count and admits.  Consequently the 11th
event of one type from one connection within 1000ms of the first is rejected,
and an event arriving strictly after the window's reset time is admitted
regardless of the prior count.  (At exactly 1000ms after the window start the
event is still inside the window and is NOT admitted when the count is full:
see the counterexample.) -/
theorem C2_isRateLimited_spec :
    (∀ (m : RateMap) (c e : String) (now : Nat),
      rlGet m (rlKey c e) = none →
      isRateLimited m c e now =
        (false, setW m (rlKey c e) ⟨1, now + RATE_LIMIT_WINDOW⟩)) ∧
    (∀ (m : RateMap) (c e : String) (now : Nat) (w : Window),
      rlGet m (rlKey c e) = some w → w.resetTime < now →
      isRateLimited m c e now =
        (false, setW m (rlKey c e) ⟨1, now + RATE_LIMIT_WINDOW⟩)) ∧
    (∀ (m : RateMap) (c e : String) (now : Nat) (w : Window),
      rlGet m (rlKey c e) = some w → ¬ w.resetTime < now →
      RATE_LIMIT_MAX_EVENTS ≤ w.count →
      isRateLimited m c e now = (true, m)) ∧
    (∀ (m : RateMap) (c e : String) (now : Nat) (w : Window),
      rlGet m (rlKey c e) = some w → ¬ w.resetTime < now →
      w.count < RATE_LIMIT_MAX_EVENTS →
      isRateLimited m c e now =
        (false, setW m (rlKey c e) ⟨w.count + 1, w.resetTime⟩)) ∧
    (∀ (m : RateMap) (c e : String) (t0 t : Nat) (ts : List Nat),
      rlGet m (rlKey c e) = none →
      ts.length = 9 →
      (∀ u ∈ ts, u ≤ t0 + RATE_LIMIT_WINDOW) →
      t ≤ t0 + RATE_LIMIT_WINDOW →
      (isRateLimited m c e t0).1 = false ∧
      rlAllAdmitted (isRateLimited m c e t0).2 c e ts = true ∧
      (isRateLimited (rlRun (isRateLimited m c e t0).2 c e ts) c e t).1 = true) ∧
    (∀ (m : RateMap) (c e : String) (now : Nat) (w : Window),
      rlGet m (rlKey c e) = some w → w.resetTime < now →
      (isRateLimited m c e now).1 = false) := by
  refine ⟨rl_first_call, rl_after_reset, rl_full_rejects, rl_incr, ?_, ?_⟩
  · intro m c e t0 t ts hnone hlen hle ht
    have hfirst := rl_first_call m c e t0 hnone
    have hget1 : rlGet (isRateLimited m c e t0).2 (rlKey c e) =
        some ⟨1, t0 + RATE_LIMIT_WINDOW⟩ := by
      rw [hfirst]; exact rlGet_setW_self ..
    have hinv := rl_window_invariant c e ts (isRateLimited m c e t0).2 1
      (t0 + RATE_LIMIT_WINDOW) hget1 hle (by rw [hlen]; decide)
    have hget10 := hinv.2
    rw [hlen] at hget10
    refine ⟨by rw [hfirst], hinv.1, ?_⟩
    have hrej := rl_full_rejects (rlRun (isRateLimited m c e t0).2 c e ts) c e t
      ⟨1 + 9, t0 + RATE_LIMIT_WINDOW⟩ hget10 (not_lt.mpr ht) (Nat.le_of_eq rfl)
    rw [hrej]
  · intro m c e now w h hlt
    rw [rl_after_reset m c e now w h hlt]

theorem C2_isRateLimited_spec_witness :
    isRateLimited [] "a" "chat" 5 =
      (false, setW [] (rlKey "a" "chat") ⟨1, 5 + RATE_LIMIT_WINDOW⟩) :=
  C2_isRateLimited_spec.1 [] "a" "chat" 5 rfl

/-- Ten admitted `chat` events from socket `s` at time 1000 fill the window
(count 10, reset time 2000). -/
def c2Map : RateMap :=
  rlRun [] "s" "chat" [1000, 1000, 1000, 1000, 1000, 1000, 1000, 1000, 1000, 1000]

/-- C2 counterexample: the window starts at time 1000 (reset time 2000) and
holds `count = 10`; the event at time 2000 — exactly 1000ms after the window
start, hence "at least 1000ms" later — is rejected, because the code resets
the window only when `now` is strictly greater than the reset time.  This
refutes "the 1st event arriving at least 1000ms after the window start is
admitted regardless of prior count". -/
theorem C2_boundary_rejected :
    rlGet c2Map (rlKey "s" "chat") = some ⟨10, 2000⟩ ∧
    (isRateLimited c2Map "s" "chat" 2000).1 = true :=
  ⟨rfl, rfl⟩

/-- C3: no broadcast produced by a connection's own action is delivered back
to that connection.  For every event and every message emitted by the step,
either it is the `error` reply to the caller itself, or the caller is not
among the recipients — in particular the `new user` notification on
subscribe, the `chat` broadcast, and the `userLeft` broadcasts on leaveRoom
and disconnect never include the acting connection (`socket.to(room)`
excludes the emitting socket). -/
theorem C3_no_self_broadcast (cfg : Config) (st : SState) (ev : Event) :
    ∀ e ∈ (step cfg st ev).2, e.event = "error" ∨ ev.sid ∉ e.recipients := by
  intro e he
  cases ev with
  | connect sid => simp [step] at he
  | subscribe sid now data =>
      simp only [step, subscribeHandler, runBody, subscribeBody] at he
      split at he
      · simp only [Prod.snd, List.mem_singleton] at he
        subst he; exact Or.inl rfl
      · split at he
        · simp only [Prod.snd, List.mem_singleton] at he
          subst he; exact Or.inl rfl
        · split at he
          · simp only [Prod.snd, List.mem_singleton] at he
            subst he; exact Or.inl rfl
          · simp only [Prod.snd] at he
            split at he
            · simp only [List.mem_singleton] at he
              subst he; exact Or.inr (not_mem_broadcastTo _ _ _)
            · simp at he
  | newUserStart sid now data =>
      simp only [step, newUserStartHandler, runBody, newUserStartBody] at he
      split at he
      · simp at he
      · split at he
        · simp at he
        · simp only [Prod.snd, List.mem_singleton] at he
          subst he; exact Or.inr (not_mem_broadcastTo _ _ _)
  | sdp sid now data =>
      simp only [step, sdpHandler, runBody, sdpBody] at he
      split at he
      · simp at he
      · split at he
        · simp at he
        · simp only [Prod.snd, List.mem_singleton] at he
          subst he; exact Or.inr (not_mem_broadcastTo _ _ _)
  | ice sid now data =>
      simp only [step, iceHandler, runBody, iceBody] at he
      split at he
      · simp at he
      · split at he
        · simp at he
        · simp only [Prod.snd, List.mem_singleton] at he
          subst he; exact Or.inr (not_mem_broadcastTo _ _ _)
  | chat sid now data =>
      simp only [step, chatHandler, runBody, chatBody] at he
      split at he
      · simp only [Prod.snd, List.mem_singleton] at he
        subst he; exact Or.inl rfl
      · split at he
        · simp only [Prod.snd, List.mem_singleton] at he
          subst he; exact Or.inl rfl
        · simp only [Prod.snd, List.mem_singleton] at he
          subst he; exact Or.inr (not_mem_broadcastTo _ _ _)
  | leaveRoom sid now data =>
      simp only [step, leaveRoomHandler, runBody, leaveRoomBody] at he
      split at he
      · simp only [Prod.snd, List.mem_singleton] at he
        subst he; exact Or.inr (not_mem_broadcastTo _ _ _)
      · simp at he
  | disconnect sid now =>
      simp only [step, disconnectHandler, runBody, disconnectBody, Prod.snd,
        List.mem_filterMap] at he
      obtain ⟨room, _, hsome⟩ := he
      split at hsome
      · rw [Option.some_inj] at hsome
        subst hsome; exact Or.inr (not_mem_broadcastTo _ _ _)
      · exact absurd hsome (by simp)

/-- A two-member room for the C3 witness. -/
def chatState : SState := ⟨[("R", ["a", "b"])], []⟩

/-- The chat payload used by the C3 witness. -/
def chatData : JSVal :=
  .obj [("room", .str "R"), ("sender", .str "alice"), ("msg", .str "hi")]

/-- The single broadcast produced by `a`'s chat in `chatState`. -/
def chatEmitA : Emit :=
  ⟨["b"], "chat", .obj [("sender", .str "alice"), ("msg", .str "hi"),
    ("timestamp", .num 0)]⟩

theorem C3_no_self_broadcast_witness :
    chatEmitA.event = "error" ∨ (Event.chat "a" 0 chatData).sid ∉ chatEmitA.recipients :=
  C3_no_self_broadcast defaultConfig chatState (.chat "a" 0 chatData) chatEmitA
    (List.mem_singleton.mpr rfl)

/-- C4 (amended): a repeated subscribe by a connection already a member of the
target room is a no-op success only while the room is below `MAX_ROOM_SIZE`:
the membership of the room is unchanged and the only emit is the `new user`
broadcast.  When the room already holds `MAX_ROOM_SIZE` members the
re-subscribe is rejected with the RoomFull error even though the connection is
already a member, because the size check precedes the join and performs no
membership test. -/
theorem C4_resubscribe (cfg : Config) (st : SState) (sid : String) (now : Nat)
    (data : JSVal)
    (hrl : (isRateLimited st.rate sid "subscribe" now).1 = false)
    (hval : validateRoomData data = true)
    (hmem : sid ∈ roomsGet st.rooms (asString (getF data "room"))) :
    (getRoomSize st.rooms (asString (getF data "room")) < cfg.MAX_ROOM_SIZE →
      roomsGet (step cfg st (.subscribe sid now data)).1.rooms
          (asString (getF data "room")) =
        roomsGet st.rooms (asString (getF data "room")) ∧
      (step cfg st (.subscribe sid now data)).2.map Emit.event = ["new user"]) ∧
    (cfg.MAX_ROOM_SIZE ≤ getRoomSize st.rooms (asString (getF data "room")) →
      (step cfg st (.subscribe sid now data)).2 =
        [errEmit sid "Room is full. Maximum capacity reached."]) := by
  constructor
  · intro hroom
    have h := subscribeBody_admitted cfg st sid now data hrl hval hroom
    constructor
    · simp only [step, subscribeHandler, runBody, h]
      by_cases hp : asString (getF data "socketId") = asString (getF data "room")
      · rw [hp, roomsGet_joinRoom_mem_noop _ _ _ (mem_roomsGet_joinRoom ..),
          roomsGet_joinRoom_mem_noop _ _ _ hmem]
      · rw [roomsGet_joinRoom_ne _ _ (Ne.symm hp),
          roomsGet_joinRoom_mem_noop _ _ _ hmem]
    · simp [step, subscribeHandler, runBody, h]
  · intro hfull
    have h := subscribeBody_full cfg st sid now data hrl hval hfull
    simp [step, subscribeHandler, runBody, h]

/-- A below-capacity room in which `c1` is already a member. -/
def smallState : SState := ⟨[("R", ["c1", "c2"])], []⟩

theorem C4_resubscribe_witness :
    roomsGet (step defaultConfig smallState
        (.subscribe "c1" 0 (mkRoomData "R" "p1"))).1.rooms "R" =
      roomsGet smallState.rooms "R" ∧
    (step defaultConfig smallState
        (.subscribe "c1" 0 (mkRoomData "R" "p1"))).2.map Emit.event = ["new user"] :=
  (C4_resubscribe defaultConfig smallState "c1" 0 (mkRoomData "R" "p1")
    rfl rfl (by decide)).1 (by decide)

/-- Ten distinct sockets fill room `R` to the default capacity. -/
def c4trace10 : List Event :=
  [ .subscribe "c1" 0 (mkRoomData "R" "p1"),
    .subscribe "c2" 0 (mkRoomData "R" "p2"),
    .subscribe "c3" 0 (mkRoomData "R" "p3"),
    .subscribe "c4" 0 (mkRoomData "R" "p4"),
    .subscribe "c5" 0 (mkRoomData "R" "p5"),
    .subscribe "c6" 0 (mkRoomData "R" "p6"),
    .subscribe "c7" 0 (mkRoomData "R" "p7"),
    .subscribe "c8" 0 (mkRoomData "R" "p8"),
    .subscribe "c9" 0 (mkRoomData "R" "p9"),
    .subscribe "c10" 0 (mkRoomData "R" "p10") ]

/-- The reachable state in which room `R` holds exactly `MAX_ROOM_SIZE`
members, `c1` among them. -/
def c4pre : SState := runEvents defaultConfig initState c4trace10

/-- C4 counterexample: `c1` is already a member of room `R`, the room holds
exactly `MAX_ROOM_SIZE` members, the repeated subscribe is not rate limited —
and yet it is rejected with the RoomFull error, refuting "this holds also when
`|members(R)|` equals MAX_ROOM_SIZE". -/
theorem C4_resubscribe_full_rejected :
    ("c1" ∈ roomsGet c4pre.rooms "R") ∧
    getRoomSize c4pre.rooms "R" = defaultConfig.MAX_ROOM_SIZE ∧
    (isRateLimited c4pre.rate "c1" "subscribe" 2000).1 = false ∧
    (step defaultConfig c4pre (.subscribe "c1" 2000 (mkRoomData "R" "p1"))).2 =
      [errEmit "c1" "Room is full. Maximum capacity reached."] :=
  ⟨by decide, rfl, rfl, rfl⟩

/-- C5 (amended): the `subscribe`, `newUserStart`, `sdp`, `ice candidates`,
`chat` and `leaveRoom` handler bodies are wrapped in `try/catch`, so an
unexpected internal fault raised during their execution is caught (the
subscribe and chat handlers additionally emit their catch-block error to the
caller) and the handler returns normally — the connection stays alive.  The
`disconnect` handler body, however, is NOT wrapped, so the claim's "including
the disconnect handler" fails: see the counterexample. -/
theorem C5_wrapped_handlers (cfg : Config) (st : SState) (sid : String)
    (now : Nat) (data : JSVal) (f : Fault) :
    subscribeHandler cfg st sid now data (some f) =
        (st, [errEmit sid "Internal server error"]) ∧
    newUserStartHandler st sid now data (some f) = (st, []) ∧
    sdpHandler st sid now data (some f) = (st, []) ∧
    iceHandler st sid now data (some f) = (st, []) ∧
    chatHandler st sid now data (some f) =
        (st, [errEmit sid "Failed to send message"]) ∧
    leaveRoomHandler st sid now data (some f) = (st, []) :=
  ⟨rfl, rfl, rfl, rfl, rfl, rfl⟩

/-- C5 counterexample: a fault raised during the `disconnect` handler body
propagates out of the handler (there is no `try/catch` around it in
`stream.js`), refuting "every event-handler body ... including the disconnect
handler ... is wrapped". -/
theorem C5_disconnect_unwrapped :
    disconnectHandler initState "s" 0 (some (.err "boom")) =
      .error (.err "boom") := rfl

/-- C6: a validation or rate-limit rejection is surfaced exactly as claimed:
for `newUserStart`, `sdp` and `ice candidates` the event is silently dropped
(no emit at all); for `subscribe` and `chat` a single `error` emit with a
message string goes to the sending connection only, and nothing is forwarded
to anyone else. -/
theorem C6_rejection_surfacing (cfg : Config) (st : SState) (sid : String)
    (now : Nat) (data : JSVal) :
    ((isRateLimited st.rate sid "newUserStart" now).1 = true →
      (step cfg st (.newUserStart sid now data)).2 = []) ∧
    ((isRateLimited st.rate sid "newUserStart" now).1 = false →
      (!truthy data || !truthy (getF data "to") || !truthy (getF data "sender")) = true →
      (step cfg st (.newUserStart sid now data)).2 = []) ∧
    ((isRateLimited st.rate sid "sdp" now).1 = true →
      (step cfg st (.sdp sid now data)).2 = []) ∧
    ((isRateLimited st.rate sid "sdp" now).1 = false →
      validateSDPData data = false →
      (step cfg st (.sdp sid now data)).2 = []) ∧
    ((isRateLimited st.rate sid "ice candidates" now).1 = true →
      (step cfg st (.ice sid now data)).2 = []) ∧
    ((isRateLimited st.rate sid "ice candidates" now).1 = false →
      validateICEData data = false →
      (step cfg st (.ice sid now data)).2 = []) ∧
    ((isRateLimited st.rate sid "subscribe" now).1 = true →
      (step cfg st (.subscribe sid now data)).2 =
        [errEmit sid "Too many requests. Please slow down."]) ∧
    ((isRateLimited st.rate sid "subscribe" now).1 = false →
      validateRoomData data = false →
      (step cfg st (.subscribe sid now data)).2 = [errEmit sid "Invalid room data"]) ∧
    ((isRateLimited st.rate sid "chat" now).1 = true →
      (step cfg st (.chat sid now data)).2 =
        [errEmit sid "Too many messages. Please slow down."]) ∧
    ((isRateLimited st.rate sid "chat" now).1 = false →
      validateChatData data = false →
      (step cfg st (.chat sid now data)).2 = [errEmit sid "Invalid message format"]) := by
  refine ⟨?_, ?_, ?_, ?_, ?_, ?_, ?_, ?_, ?_, ?_⟩
  · intro h
    simp [step, newUserStartHandler, runBody, newUserStartBody, h]
  · intro h h2
    simp [step, newUserStartHandler, runBody, newUserStartBody, h, h2]
  · intro h
    simp [step, sdpHandler, runBody, sdpBody, h]
  · intro h h2
    simp [step, sdpHandler, runBody, sdpBody, h, h2]
  · intro h
    simp [step, iceHandler, runBody, iceBody, h]
  · intro h h2
    simp [step, iceHandler, runBody, iceBody, h, h2]
  · intro h
    simp [step, subscribeHandler, runBody, subscribeBody, h]
  · intro h h2
    simp [step, subscribeHandler, runBody, subscribeBody, h, h2]
  · intro h
    simp [step, chatHandler, runBody, chatBody, h]
  · intro h h2
    simp [step, chatHandler, runBody, chatBody, h, h2]

theorem C6_rejection_surfacing_witness :
    (step defaultConfig initState (.subscribe "w" 0 JSVal.null)).2 =
      [errEmit "w" "Invalid room data"] ∧
    (step defaultConfig initState (.sdp "w" 0 JSVal.null)).2 = [] := by
  have h := C6_rejection_surfacing defaultConfig initState "w" 0 JSVal.null
  exact ⟨h.2.2.2.2.2.2.2.1 rfl rfl, h.2.2.2.1 rfl rfl⟩

/-- C7: a validated `sdp` payload is forwarded to the target `data.to` with
`description` identical to the input description and `sender` equal to the
input sender; the only field the relay adds is the server-generated
`timestamp`, and no field of the input payload is altered (the forwarded
payload is exactly `{description, sender, timestamp}`).  Room membership is
untouched. -/
theorem C7_sdp_forward (cfg : Config) (st : SState) (sid : String) (now : Nat)
    (data : JSVal)
    (hrl : (isRateLimited st.rate sid "sdp" now).1 = false)
    (hval : validateSDPData data = true) :
    (step cfg st (.sdp sid now data)).2 =
      [⟨broadcastTo st.rooms (asString (getF data "to")) sid, "sdp",
        .obj [("description", getF data "description"),
              ("sender", getF data "sender"),
              ("timestamp", .num now)]⟩] ∧
    (step cfg st (.sdp sid now data)).1.rooms = st.rooms := by
  constructor <;> simp [step, sdpHandler, runBody, sdpBody, hrl, hval]

/-- A state with one socket `bob` in the implicit room `t`, used by the C7 and
C8 witnesses. -/
def sdpState : SState := ⟨[("t", ["bob"])], []⟩

/-- A well-formed SDP payload for the C7 witness. -/
def sdpData : JSVal :=
  .obj [("to", .str "t"), ("sender", .str "alice"),
        ("description", .obj [("type", .str "offer"), ("sdp", .str "v=0")])]

theorem C7_sdp_forward_witness :
    (step defaultConfig sdpState (.sdp "a" 7 sdpData)).2 =
      [⟨broadcastTo sdpState.rooms (asString (getF sdpData "to")) "a", "sdp",
        .obj [("description", getF sdpData "description"),
              ("sender", getF sdpData "sender"),
              ("timestamp", .num 7)]⟩] ∧
    (step defaultConfig sdpState (.sdp "a" 7 sdpData)).1.rooms = sdpState.rooms :=
  C7_sdp_forward defaultConfig sdpState "a" 7 sdpData rfl rfl

/-- C8: for an `ice candidates` payload whose `to` and `sender` are non-empty
strings, a `candidate` that is exactly `null` is accepted and forwarded still
exactly `null`; a `candidate` that is a (non-null) object is accepted and
forwarded; any other shape — the field absent, `undefined`, a string, a
number, or a boolean — is rejected. -/
theorem C8_ice_candidate_shapes (tgt sender : String) (hto : tgt ≠ "")
    (hsender : sender ≠ "") :
    (validateICEData (.obj [("to", .str tgt), ("sender", .str sender),
        ("candidate", .null)]) = true) ∧
    (∀ fs, validateICEData (.obj [("to", .str tgt), ("sender", .str sender),
        ("candidate", .obj fs)]) = true) ∧
    (validateICEData (.obj [("to", .str tgt), ("sender", .str sender)]) = false) ∧
    (validateICEData (.obj [("to", .str tgt), ("sender", .str sender),
        ("candidate", .undefined)]) = false) ∧
    (∀ s, validateICEData (.obj [("to", .str tgt), ("sender", .str sender),
        ("candidate", .str s)]) = false) ∧
    (∀ n, validateICEData (.obj [("to", .str tgt), ("sender", .str sender),
        ("candidate", .num n)]) = false) ∧
    (∀ b, validateICEData (.obj [("to", .str tgt), ("sender", .str sender),
        ("candidate", .bool b)]) = false) ∧
    (∀ (cfg : Config) (st : SState) (sid : String) (now : Nat) (cand : JSVal),
      (isRateLimited st.rate sid "ice candidates" now).1 = false →
      validateICEData (.obj [("to", .str tgt), ("sender", .str sender),
        ("candidate", cand)]) = true →
      (step cfg st (.ice sid now (.obj [("to", .str tgt), ("sender", .str sender),
          ("candidate", cand)]))).2 =
        [⟨broadcastTo st.rooms tgt sid, "ice candidates",
          .obj [("candidate", cand), ("sender", .str sender),
                ("timestamp", .num now)]⟩]) := by
  refine ⟨?_, ?_, ?_, ?_, ?_, ?_, ?_, ?_⟩
  · simp [validateICEData, getF, lookupField, truthy, jsTypeof, isNullVal,
      bne_iff_ne, hto, hsender]
  · intro fs
    simp [validateICEData, getF, lookupField, truthy, jsTypeof, isNullVal,
      bne_iff_ne, hto, hsender]
  · simp [validateICEData, getF, lookupField, truthy, jsTypeof, isNullVal,
      bne_iff_ne, hto, hsender]
  · simp [validateICEData, getF, lookupField, truthy, jsTypeof, isNullVal,
      bne_iff_ne, hto, hsender]
  · intro s
    simp [validateICEData, getF, lookupField, truthy, jsTypeof, isNullVal,
      bne_iff_ne, hto, hsender]
  · intro n
    simp [validateICEData, getF, lookupField, truthy, jsTypeof, isNullVal,
      bne_iff_ne, hto, hsender]
  · intro b
    simp [validateICEData, getF, lookupField, truthy, jsTypeof, isNullVal,
      bne_iff_ne, hto, hsender]
  · intro cfg st sid now cand hrl hval
    simp [step, iceHandler, runBody, iceBody, hrl, hval, getF, lookupField, asString]

theorem C8_ice_candidate_shapes_witness :
    validateICEData (.obj [("to", .str "t"), ("sender", .str "alice"),
        ("candidate", .null)]) = true ∧
    (step defaultConfig sdpState (.ice "a" 3 (.obj [("to", .str "t"),
        ("sender", .str "alice"), ("candidate", .null)]))).2 =
      [⟨broadcastTo sdpState.rooms "t" "a", "ice candidates",
        .obj [("candidate", .null), ("sender", .str "alice"),
              ("timestamp", .num 3)]⟩] := by
  have h := C8_ice_candidate_shapes "t" "alice" (by decide) (by decide)
  exact ⟨h.1, h.2.2.2.2.2.2.2 defaultConfig sdpState "a" 3 .null rfl h.1⟩

/-- C9: the disconnect-time sweep removes exactly the windows whose key string
starts with the disconnecting socket's id.  In particular it removes every
window of the disconnecting connection itself, and also the windows of any
other connection whose identifier has the disconnecting identifier as a
prefix — the key is the plain concatenation `id + ":" + event` matched by
string prefix, not by exact connection component. -/
theorem C9_sweep_prefix :
    (∀ (m : RateMap) (socketId : String) (k : List Char) (w : Window),
      (k, w) ∈ rlSweep m socketId ↔
        ((k, w) ∈ m ∧ List.isPrefixOf socketId.data k = false)) ∧
    (∀ (m : RateMap) (socketId event : String),
      rlGet (rlSweep m socketId) (rlKey socketId event) = none) ∧
    (∀ (m : RateMap) (socketId did event : String),
      List.isPrefixOf socketId.data did.data = true →
      rlGet (rlSweep m socketId) (rlKey did event) = none) := by
  refine ⟨?_, ?_, ?_⟩
  · intro m sid k w
    simp [rlSweep, List.mem_filter]
  · intro m sid ev
    exact rlGet_rlSweep_of_isPrefix m sid _
      (isPrefixOf_rlKey sid sid ev
        (List.isPrefixOf_iff_prefix.mpr (List.prefix_refl _)))
  · intro m sid did ev h
    exact rlGet_rlSweep_of_isPrefix m sid _ (isPrefixOf_rlKey sid did ev h)

theorem C9_sweep_prefix_witness :
    rlGet (rlSweep [(rlKey "ab" "chat", ⟨3, 500⟩)] "a") (rlKey "ab" "chat") = none :=
  C9_sweep_prefix.2.2 [(rlKey "ab" "chat", ⟨3, 500⟩)] "a" "ab" "chat" (by decide)

theorem getFieldE_obj (fs : List (String × JSVal)) (k : String) :
    getFieldE (.obj fs) k = .ok (getF (.obj fs) k) := rfl

theorem obj_of_not_guard {v : JSVal}
    (h : ¬ (!truthy v || jsTypeof v != "object") = true) : ∃ fs, v = .obj fs := by
  cases v <;> first
    | exact ⟨_, rfl⟩
    | simp_all [truthy, jsTypeof]

theorem validateRoomDataE_agree (v : JSVal) :
    validateRoomDataE v = .ok (validateRoomData v) := by
  cases v
  case obj fs =>
    dsimp only [validateRoomDataE, validateRoomData, getFieldE_obj]
    repeat' split
    all_goals rfl
  all_goals simp [validateRoomDataE, validateRoomData, truthy, jsTypeof]

theorem validateSDPDataE_agree (v : JSVal) :
    validateSDPDataE v = .ok (validateSDPData v) := by
  cases v
  case obj fs =>
    dsimp only [validateSDPDataE, validateSDPData, getFieldE_obj]
    split
    · rfl
    split
    · rfl
    split
    · rfl
    split
    · rfl
    next g4 =>
      obtain ⟨ds, hds⟩ := obj_of_not_guard g4
      rw [hds]
      dsimp only [getFieldE_obj]
      repeat' split
      all_goals rfl
  all_goals simp [validateSDPDataE, validateSDPData, truthy, jsTypeof]

theorem validateICEDataE_agree (v : JSVal) :
    validateICEDataE v = .ok (validateICEData v) := by
  cases v
  case obj fs =>
    dsimp only [validateICEDataE, validateICEData, getFieldE_obj]
    repeat' split
    all_goals rfl
  all_goals simp [validateICEDataE, validateICEData, truthy, jsTypeof]

theorem validateChatDataE_agree (v : JSVal) :
    validateChatDataE v = .ok (validateChatData v) := by
  cases v
  case obj fs =>
    dsimp only [validateChatDataE, validateChatData, getFieldE_obj]
    repeat' split
    all_goals rfl
  all_goals simp [validateChatDataE, validateChatData, truthy, jsTypeof]

theorem validateRoomData_nonobj (v : JSVal) (h : isObjVal v = false) :
    validateRoomData v = false := by
  cases v <;> simp_all [isObjVal, validateRoomData, truthy, jsTypeof]

theorem validateSDPData_nonobj (v : JSVal) (h : isObjVal v = false) :
    validateSDPData v = false := by
  cases v <;> simp_all [isObjVal, validateSDPData, truthy, jsTypeof]

theorem validateICEData_nonobj (v : JSVal) (h : isObjVal v = false) :
    validateICEData v = false := by
  cases v <;> simp_all [isObjVal, validateICEData, truthy, jsTypeof]

theorem validateChatData_nonobj (v : JSVal) (h : isObjVal v = false) :
    validateChatData v = false := by
  cases v <;> simp_all [isObjVal, validateChatData, truthy, jsTypeof]

/-- C10: each of the four validators is total over arbitrary input values —
its exception-aware version (in which every JS property access may throw)
returns `.ok` of the same boolean for every input, including `null`,
`undefined` and primitive values, and every non-object input is rejected up
front before any nested field is accessed. -/
theorem C10_validators_total :
    (∀ v : JSVal, validateRoomDataE v = .ok (validateRoomData v)) ∧
    (∀ v : JSVal, isObjVal v = false → validateRoomData v = false) ∧
    (∀ v : JSVal, validateSDPDataE v = .ok (validateSDPData v)) ∧
    (∀ v : JSVal, isObjVal v = false → validateSDPData v = false) ∧
    (∀ v : JSVal, validateICEDataE v = .ok (validateICEData v)) ∧
    (∀ v : JSVal, isObjVal v = false → validateICEData v = false) ∧
    (∀ v : JSVal, validateChatDataE v = .ok (validateChatData v)) ∧
    (∀ v : JSVal, isObjVal v = false → validateChatData v = false) :=
  ⟨validateRoomDataE_agree, validateRoomData_nonobj,
   validateSDPDataE_agree, validateSDPData_nonobj,
   validateICEDataE_agree, validateICEData_nonobj,
   validateChatDataE_agree, validateChatData_nonobj⟩

theorem C10_validators_total_witness :
    validateRoomDataE JSVal.null = .ok (validateRoomData JSVal.null) ∧
    validateRoomData JSVal.null = false ∧
    validateChatData (JSVal.str "hello") = false :=
  ⟨C10_validators_total.1 JSVal.null,
   C10_validators_total.2.1 JSVal.null rfl,
   C10_validators_total.2.2.2.2.2.2.2 (JSVal.str "hello") rfl⟩

end VideoCall
